import Mathlib

/-!
Verification of the payment ledger and reconciliation engine of the
`ims-backend` repository (chit-fund member accounts).

Shallow embedding of:
  * `src/models/userPayment.js` — the `UserPayment` document schema and the
    `pre("save")` derivation middleware;
  * `src/controllers/userPaymentsController.js` — the controller operations
    `createUserPayment`, `recordPayment`, `recordBulkPayment` and
    `updateUserPayment`.

Modelling conventions:
  * JS numbers used as money are embedded as `ℚ` (exact arithmetic; the spec
    puts rounding policy out of scope); counters and month numbers as `ℤ`.
  * A JS `Date` is embedded as `JsDate`: `ym` is the year-month index
    (`year * 12 + month`, the value `setMonth`/`getMonth` arithmetic acts on)
    and `sub` the remaining time within that month frame.  `setMonth(getMonth
    + k)` becomes `addMonths k`; `Date` comparison is lexicographic, which
    agrees with epoch-time comparison for in-range `sub` values.
  * A missing (`undefined`/`null`) field is `Option.none`.  JS truthiness
    tests on numbers (`!this.monthlyPremium`) are modelled exactly: the
    number `0` is falsy, so `some 0` fails the truthiness test.
  * `Document.save()` runs the `pre("save")` middleware and persists; it is
    modelled by the pure function `preSave`.  Mongoose field-level schema
    validation (min/match bounds) is not modelled; the controller-level
    checks, which the claims are about, are.  `findByIdAndUpdate` applies a
    field patch directly and does NOT run the `pre("save")` middleware
    (Mongoose query updates bypass document middleware), which the model of
    `updateUserPayment` reflects.
  * The record status `"partial"` is the constructor `partialPaid`.
-/

/-- A JS `Date`: year-month index (`year*12+month`) plus the time within the
month frame.  `setMonth(getMonth() + k)` only moves `ym`. -/
structure JsDate where
  ym : Int
  sub : Int
deriving DecidableEq

/-- `new Date(d); d.setMonth(d.getMonth() + k)`. -/
def JsDate.addMonths (d : JsDate) (k : Int) : JsDate :=
  { d with ym := d.ym + k }

/-- JS `Date` comparison `a < b` (epoch-time order, lexicographic here). -/
def JsDate.ltb (a b : JsDate) : Bool :=
  decide (a.ym < b.ym) || (decide (a.ym = b.ym) && decide (a.sub < b.sub))

/-- `paymentRecordSchema.status` enum: paid / pending / overdue / partial. -/
inductive RecStatus
  | paid
  | pending
  | overdue
  | partialPaid
deriving DecidableEq

/-- `paymentRecordSchema.paymentMethod` enum. -/
inductive PayMethod
  | cash
  | bank_transfer
  | upi
  | cheque
  | card
deriving DecidableEq

/-- `userPaymentSchema.status` enum: active / completed / cancelled. -/
inductive AccStatus
  | active
  | completed
  | cancelled
deriving DecidableEq

/-- One embedded `paymentRecordSchema` subdocument. -/
structure PaymentRecord where
  monthNumber : Int
  amount : ℚ
  paymentDate : JsDate
  dueDate : JsDate
  status : RecStatus
  paymentMethod : PayMethod
  transactionId : Option String
  remarks : Option String
  lateFee : ℚ
deriving DecidableEq

/-- The `address` substructure of the `userPaymentSchema`. -/
structure Address where
  street : Option String
  city : Option String
  state : Option String
  pincode : Option String
deriving DecidableEq

/-- A `UserPayment` document (the MemberAccount aggregate root). -/
structure UserPayment where
  memberName : String
  aadharNumber : String
  phoneNumber : String
  email : String
  address : Address
  chitAmount : ℚ
  tenure : Int
  monthlyPremium : Option ℚ
  startDate : JsDate
  endDate : Option JsDate
  status : AccStatus
  paymentRecords : List PaymentRecord
  totalPaidAmount : ℚ
  pendingMonths : Int
  completedMonths : Int
  lastPaymentDate : Option JsDate
deriving DecidableEq

/-- `record.status === "paid" || record.status === "partial"` — the filter of
the `pre("save")` middleware (a "settled" record). -/
def isSettled (r : PaymentRecord) : Bool :=
  decide (r.status = RecStatus.paid) || decide (r.status = RecStatus.partialPaid)

/-- `this.paymentRecords.filter(...)` — the settled records. -/
def settledOf (l : List PaymentRecord) : List PaymentRecord :=
  l.filter isSettled

/-- `paidRecords.reduce((total, record) => total + record.amount, 0)`. -/
def sumAmounts (l : List PaymentRecord) : ℚ :=
  l.foldl (fun t r => t + r.amount) 0

/-- `paidRecords.reduce((latest, record) => record.paymentDate >
latest.paymentDate ? record : latest)` on a non-empty list `h :: t`. -/
def jsLatest (h : PaymentRecord) (t : List PaymentRecord) : PaymentRecord :=
  t.foldl (fun latest r => if latest.paymentDate.ltb r.paymentDate then r else latest) h

/-- JS truthiness of a possibly-missing number: `undefined`, `null` and `0`
are falsy. -/
def numFalsy (o : Option ℚ) : Bool :=
  match o with
  | none => true
  | some x => decide (x = 0)

/-- Lines 134–139 of the middleware: derive `endDate` when
`this.startDate && this.tenure && !this.endDate`.  `startDate` is a required
`Date`, hence always truthy. -/
def deriveEndDate (u : UserPayment) : UserPayment :=
  if u.tenure ≠ 0 ∧ u.endDate = none then
    { u with endDate := some (u.startDate.addMonths u.tenure) }
  else u

/-- Lines 141–144 of the middleware: derive `monthlyPremium` when
`this.chitAmount && this.tenure && !this.monthlyPremium`. -/
def derivePremium (u : UserPayment) : UserPayment :=
  if u.chitAmount ≠ 0 ∧ u.tenure ≠ 0 ∧ numFalsy u.monthlyPremium then
    { u with monthlyPremium := some (u.chitAmount / (u.tenure : ℚ)) }
  else u

/-- Lines 134–144 of the middleware: the contract-field derivations in
source order. -/
def deriveContract (u : UserPayment) : UserPayment :=
  derivePremium (deriveEndDate u)

/-- Lines 146–164 of the middleware: recompute `completedMonths`,
`pendingMonths`, `totalPaidAmount` from the settled records, and
`lastPaymentDate` when there is at least one settled record. -/
def deriveSummary (u : UserPayment) : UserPayment :=
  let settled := settledOf u.paymentRecords
  { u with
    completedMonths := (settled.length : Int)
    pendingMonths := u.tenure - (settled.length : Int)
    totalPaidAmount := sumAmounts settled
    lastPaymentDate :=
      match settled with
      | [] => u.lastPaymentDate
      | h :: t => some (jsLatest h t).paymentDate }

/-- Lines 166–169 of the middleware: `if (this.completedMonths >=
this.tenure) this.status = "completed"`. -/
def deriveStatus (u : UserPayment) : UserPayment :=
  if u.tenure ≤ u.completedMonths then { u with status := AccStatus.completed } else u

/-- `userPaymentSchema.pre("save")` — the full derivation pass, run by
`Document.save()` immediately before persisting. -/
def preSave (u : UserPayment) : UserPayment :=
  deriveStatus (deriveSummary (deriveContract u))

theorem deriveEndDate_paymentRecords (u : UserPayment) :
    (deriveEndDate u).paymentRecords = u.paymentRecords := by
  unfold deriveEndDate
  split <;> rfl

theorem deriveEndDate_tenure (u : UserPayment) :
    (deriveEndDate u).tenure = u.tenure := by
  unfold deriveEndDate
  split <;> rfl

theorem deriveEndDate_status (u : UserPayment) :
    (deriveEndDate u).status = u.status := by
  unfold deriveEndDate
  split <;> rfl

theorem derivePremium_paymentRecords (u : UserPayment) :
    (derivePremium u).paymentRecords = u.paymentRecords := by
  unfold derivePremium
  split <;> rfl

theorem derivePremium_tenure (u : UserPayment) :
    (derivePremium u).tenure = u.tenure := by
  unfold derivePremium
  split <;> rfl

theorem derivePremium_status (u : UserPayment) :
    (derivePremium u).status = u.status := by
  unfold derivePremium
  split <;> rfl

theorem deriveContract_paymentRecords (u : UserPayment) :
    (deriveContract u).paymentRecords = u.paymentRecords := by
  unfold deriveContract
  rw [derivePremium_paymentRecords, deriveEndDate_paymentRecords]

theorem deriveContract_tenure (u : UserPayment) :
    (deriveContract u).tenure = u.tenure := by
  unfold deriveContract
  rw [derivePremium_tenure, deriveEndDate_tenure]

theorem deriveContract_status (u : UserPayment) :
    (deriveContract u).status = u.status := by
  unfold deriveContract
  rw [derivePremium_status, deriveEndDate_status]

theorem deriveSummary_paymentRecords (u : UserPayment) :
    (deriveSummary u).paymentRecords = u.paymentRecords := rfl

theorem deriveSummary_tenure (u : UserPayment) :
    (deriveSummary u).tenure = u.tenure := rfl

theorem deriveSummary_status (u : UserPayment) :
    (deriveSummary u).status = u.status := rfl

theorem deriveSummary_completedMonths (u : UserPayment) :
    (deriveSummary u).completedMonths = ((settledOf u.paymentRecords).length : Int) := rfl

theorem deriveSummary_pendingMonths (u : UserPayment) :
    (deriveSummary u).pendingMonths
      = u.tenure - ((settledOf u.paymentRecords).length : Int) := rfl

theorem deriveSummary_totalPaidAmount (u : UserPayment) :
    (deriveSummary u).totalPaidAmount = sumAmounts (settledOf u.paymentRecords) := rfl

theorem deriveStatus_paymentRecords (u : UserPayment) :
    (deriveStatus u).paymentRecords = u.paymentRecords := by
  unfold deriveStatus
  split <;> rfl

theorem deriveStatus_tenure (u : UserPayment) :
    (deriveStatus u).tenure = u.tenure := by
  unfold deriveStatus
  split <;> rfl

theorem deriveStatus_completedMonths (u : UserPayment) :
    (deriveStatus u).completedMonths = u.completedMonths := by
  unfold deriveStatus
  split <;> rfl

theorem deriveStatus_pendingMonths (u : UserPayment) :
    (deriveStatus u).pendingMonths = u.pendingMonths := by
  unfold deriveStatus
  split <;> rfl

theorem deriveStatus_totalPaidAmount (u : UserPayment) :
    (deriveStatus u).totalPaidAmount = u.totalPaidAmount := by
  unfold deriveStatus
  split <;> rfl

theorem preSave_paymentRecords (u : UserPayment) :
    (preSave u).paymentRecords = u.paymentRecords := by
  unfold preSave
  rw [deriveStatus_paymentRecords, deriveSummary_paymentRecords,
    deriveContract_paymentRecords]

theorem preSave_tenure (u : UserPayment) :
    (preSave u).tenure = u.tenure := by
  unfold preSave
  rw [deriveStatus_tenure, deriveSummary_tenure, deriveContract_tenure]

theorem preSave_completedMonths (u : UserPayment) :
    (preSave u).completedMonths = ((settledOf u.paymentRecords).length : Int) := by
  unfold preSave
  rw [deriveStatus_completedMonths, deriveSummary_completedMonths,
    deriveContract_paymentRecords]

theorem preSave_pendingMonths (u : UserPayment) :
    (preSave u).pendingMonths
      = u.tenure - ((settledOf u.paymentRecords).length : Int) := by
  unfold preSave
  rw [deriveStatus_pendingMonths, deriveSummary_pendingMonths,
    deriveContract_paymentRecords, deriveContract_tenure]

theorem preSave_totalPaidAmount (u : UserPayment) :
    (preSave u).totalPaidAmount = sumAmounts (settledOf u.paymentRecords) := by
  unfold preSave
  rw [deriveStatus_totalPaidAmount, deriveSummary_totalPaidAmount,
    deriveContract_paymentRecords]

/-! ## Controller operations (`src/controllers/userPaymentsController.js`) -/

/-- Structured form of the error responses (`res.status(400).json(...)`) of
the payment controllers.  `invalidMonths` / `monthsAlreadyPaid` carry the
month lists interpolated into the single-payment messages; the two bulk
constructors carry the single month named in the bulk messages. -/
inductive PayError
  | invalidMonths (months : List Int)
  | monthsAlreadyPaid (months : List Int)
  | bulkInvalidMonth (month : Int)
  | bulkMonthAlreadyPaid (month : Int)
deriving DecidableEq

/-- The request body of `POST /api/user-payments/:id/pay`. -/
structure PayRequest where
  monthNumbers : List Int
  amount : ℚ
  paymentDate : Option JsDate
  paymentMethod : Option PayMethod
  transactionId : Option String
  remarks : Option String
deriving DecidableEq

/-- `monthNumbers.filter((month) => month < 1 || month > userPayment.tenure)`
(lines 177–179). -/
def singleInvalid (u : UserPayment) (req : PayRequest) : List Int :=
  req.monthNumbers.filter (fun m => decide (m < 1 ∨ u.tenure < m))

/-- Lines 191–196: month numbers of existing records that are requested
again and already have status paid. -/
def singleExisting (u : UserPayment) (req : PayRequest) : List Int :=
  (u.paymentRecords.filter
    (fun r => decide (r.monthNumber ∈ req.monthNumbers) && decide (r.status = RecStatus.paid))).map
    (fun r => r.monthNumber)

/-- Lines 206–220: the new record built for one requested month number.
`lateFee` is absent from the single-payment body, so the subdocument schema
default 0 applies. -/
def mkSingleRecord (now : JsDate) (u : UserPayment) (req : PayRequest) (m : Int) :
    PaymentRecord :=
  { monthNumber := m
    amount := req.amount / (req.monthNumbers.length : ℚ)
    paymentDate := req.paymentDate.getD now
    dueDate := u.startDate.addMonths (m - 1)
    status := RecStatus.paid
    paymentMethod := req.paymentMethod.getD PayMethod.cash
    transactionId := req.transactionId
    remarks := req.remarks
    lateFee := 0 }

/-- `recordPayment` (lines 157–241): validate month range, then the
already-paid conflict, then append the even-split records and `save()`
(which runs `preSave`).  `now` is the clock value `new Date()`. -/
def recordPayment (now : JsDate) (u : UserPayment) (req : PayRequest) :
    Except PayError UserPayment :=
  if (singleInvalid u req).length > 0 then
    Except.error (PayError.invalidMonths (singleInvalid u req))
  else if (singleExisting u req).length > 0 then
    Except.error (PayError.monthsAlreadyPaid (singleExisting u req))
  else
    Except.ok (preSave
      { u with paymentRecords :=
          u.paymentRecords ++ req.monthNumbers.map (mkSingleRecord now u req) })

/-- The account state in the store after a `recordPayment` request: the
saved document on success, the untouched document on an error response. -/
def persistAfterPay (now : JsDate) (u : UserPayment) (req : PayRequest) : UserPayment :=
  match recordPayment now u req with
  | Except.ok v => v
  | Except.error _ => u

/-- One entry of the `payments` array of
`POST /api/user-payments/:id/bulk-pay`. -/
structure BulkEntry where
  monthNumber : Int
  amount : ℚ
  paymentDate : Option JsDate
  paymentMethod : Option PayMethod
  transactionId : Option String
  remarks : Option String
  lateFee : Option ℚ
deriving DecidableEq

/-- The validation loop of `recordBulkPayment` (lines 259–278): the first
entry failing the range check or the already-paid check decides the error;
the loop inspects only the pre-existing `paymentRecords`, never the other
entries of the batch. -/
def bulkFirstError (u : UserPayment) : List BulkEntry → Option PayError
  | [] => none
  | p :: rest =>
    if p.monthNumber < 1 ∨ u.tenure < p.monthNumber then
      some (PayError.bulkInvalidMonth p.monthNumber)
    else if (u.paymentRecords.filter
        (fun r => decide (r.monthNumber = p.monthNumber) && decide (r.status = RecStatus.paid))).length > 0 then
      some (PayError.bulkMonthAlreadyPaid p.monthNumber)
    else bulkFirstError u rest

/-- Lines 281–298: the record built from one bulk entry; the amount is the
entry's own, `lateFee` is `payment.lateFee || 0` (`0` is the only falsy
rational, so this is `getD 0`). -/
def mkBulkRecord (now : JsDate) (u : UserPayment) (e : BulkEntry) : PaymentRecord :=
  { monthNumber := e.monthNumber
    amount := e.amount
    paymentDate := e.paymentDate.getD now
    dueDate := u.startDate.addMonths (e.monthNumber - 1)
    status := RecStatus.paid
    paymentMethod := e.paymentMethod.getD PayMethod.cash
    transactionId := e.transactionId
    remarks := e.remarks
    lateFee := e.lateFee.getD 0 }

/-- `recordBulkPayment` (lines 246–316): run the per-entry validation loop;
when it passes, append one record per entry and `save()`. -/
def recordBulkPayment (now : JsDate) (u : UserPayment) (ps : List BulkEntry) :
    Except PayError UserPayment :=
  match bulkFirstError u ps with
  | some e => Except.error e
  | none =>
    Except.ok (preSave
      { u with paymentRecords := u.paymentRecords ++ ps.map (mkBulkRecord now u) })

/-- The account state in the store after a `recordBulkPayment` request. -/
def persistAfterBulk (now : JsDate) (u : UserPayment) (ps : List BulkEntry) : UserPayment :=
  match recordBulkPayment now u ps with
  | Except.ok v => v
  | Except.error _ => u

/-- The request body of `POST /api/user-payments` (creation).  Fields the
schema defaults when missing are `Option`s. -/
structure CreateData where
  memberName : String
  aadharNumber : String
  phoneNumber : String
  email : String
  address : Address
  chitAmount : ℚ
  tenure : Int
  monthlyPremium : Option ℚ
  startDate : JsDate
  endDate : Option JsDate
  status : Option AccStatus
  paymentRecords : Option (List PaymentRecord)
deriving DecidableEq

/-- Lines 8–27 of `createUserPayment`: duplicate the end-date/premium
derivation on the raw body, zero the summary fields, and build the document
with the schema defaults (`status` active, `paymentRecords` empty). -/
def createDoc (d : CreateData) : UserPayment :=
  let endDate :=
    if d.tenure ≠ 0 ∧ d.endDate = none then some (d.startDate.addMonths d.tenure)
    else d.endDate
  let premium :=
    if d.chitAmount ≠ 0 ∧ d.tenure ≠ 0 ∧ numFalsy d.monthlyPremium then
      some (d.chitAmount / (d.tenure : ℚ))
    else d.monthlyPremium
  { memberName := d.memberName
    aadharNumber := d.aadharNumber
    phoneNumber := d.phoneNumber
    email := d.email
    address := d.address
    chitAmount := d.chitAmount
    tenure := d.tenure
    monthlyPremium := premium
    startDate := d.startDate
    endDate := endDate
    status := d.status.getD AccStatus.active
    paymentRecords := d.paymentRecords.getD []
    totalPaidAmount := 0
    completedMonths := 0
    pendingMonths := d.tenure
    lastPaymentDate := none }

/-- `createUserPayment` (lines 6–48): build the document from the request
body, then `save()` — so the persisted document is `preSave` of the built
one. -/
def createUserPayment (d : CreateData) : UserPayment :=
  preSave (createDoc d)

/-- The request body of `PUT /api/user-payments/:id`: a free-form field
patch; `none` means the field is absent from the patch. -/
structure UpdatePatch where
  memberName : Option String := none
  aadharNumber : Option String := none
  phoneNumber : Option String := none
  email : Option String := none
  address : Option Address := none
  chitAmount : Option ℚ := none
  tenure : Option Int := none
  monthlyPremium : Option ℚ := none
  startDate : Option JsDate := none
  endDate : Option JsDate := none
  status : Option AccStatus := none
  paymentRecords : Option (List PaymentRecord) := none
  totalPaidAmount : Option ℚ := none
  pendingMonths : Option Int := none
  completedMonths : Option Int := none
  lastPaymentDate : Option JsDate := none
deriving DecidableEq

/-- Patch semantics on a nullable field: a value present in the patch body
replaces the stored one, an absent key leaves it. -/
def patchOpt {α : Type} (p : Option α) (old : Option α) : Option α :=
  match p with
  | some v => some v
  | none => old

/-- `updateUserPayment` (lines 365–391): `findByIdAndUpdate(id, req.body,
{new: true, runValidators: true})`.  A Mongoose query update sets the given
fields directly and does NOT run the document `pre("save")` middleware, so
no derivation pass happens on this path. -/
def updateUserPayment (u : UserPayment) (p : UpdatePatch) : UserPayment :=
  { memberName := p.memberName.getD u.memberName
    aadharNumber := p.aadharNumber.getD u.aadharNumber
    phoneNumber := p.phoneNumber.getD u.phoneNumber
    email := p.email.getD u.email
    address := p.address.getD u.address
    chitAmount := p.chitAmount.getD u.chitAmount
    tenure := p.tenure.getD u.tenure
    monthlyPremium := patchOpt p.monthlyPremium u.monthlyPremium
    startDate := p.startDate.getD u.startDate
    endDate := patchOpt p.endDate u.endDate
    status := p.status.getD u.status
    paymentRecords := p.paymentRecords.getD u.paymentRecords
    totalPaidAmount := p.totalPaidAmount.getD u.totalPaidAmount
    pendingMonths := p.pendingMonths.getD u.pendingMonths
    completedMonths := p.completedMonths.getD u.completedMonths
    lastPaymentDate := patchOpt p.lastPaymentDate u.lastPaymentDate }

/-- One payment-application request against an account (the two mutation
entry points of the payment path). -/
inductive PayOp
  | single (now : JsDate) (req : PayRequest)
  | bulk (now : JsDate) (ps : List BulkEntry)

/-- The stored account after one payment-application request. -/
def applyOp (u : UserPayment) : PayOp → UserPayment
  | PayOp.single now req => persistAfterPay now u req
  | PayOp.bulk now ps => persistAfterBulk now u ps

/-- The stored account after a sequence of payment-application requests. -/
def applyOps (u : UserPayment) (ops : List PayOp) : UserPayment :=
  ops.foldl applyOp u

/-- The persisted cached summary is consistent with the persisted
`paymentRecords`, i.e. it equals what the derivation pass (lines 146–169)
computes from those records: `completedMonths`/`pendingMonths`/
`totalPaidAmount` as derived, `lastPaymentDate` the latest settled payment
date when a settled record exists, and `status` completed when the settled
count has reached `tenure`. -/
def summaryOk (u : UserPayment) : Bool :=
  let settled := settledOf u.paymentRecords
  decide (u.completedMonths = (settled.length : Int)) &&
  decide (u.pendingMonths = u.tenure - (settled.length : Int)) &&
  decide (u.totalPaidAmount = sumAmounts settled) &&
  (match settled with
   | [] => true
   | h :: t => decide (u.lastPaymentDate = some (jsLatest h t).paymentDate)) &&
  (!decide (u.tenure ≤ u.completedMonths) || decide (u.status = AccStatus.completed))

/-! ## Basic lemmas about the derivation pass -/

theorem deriveEndDate_monthlyPremium (u : UserPayment) :
    (deriveEndDate u).monthlyPremium = u.monthlyPremium := by
  unfold deriveEndDate
  split <;> rfl

theorem deriveEndDate_chitAmount (u : UserPayment) :
    (deriveEndDate u).chitAmount = u.chitAmount := by
  unfold deriveEndDate
  split <;> rfl

theorem deriveEndDate_lastPaymentDate (u : UserPayment) :
    (deriveEndDate u).lastPaymentDate = u.lastPaymentDate := by
  unfold deriveEndDate
  split <;> rfl

theorem derivePremium_endDate (u : UserPayment) :
    (derivePremium u).endDate = u.endDate := by
  unfold derivePremium
  split <;> rfl

theorem derivePremium_lastPaymentDate (u : UserPayment) :
    (derivePremium u).lastPaymentDate = u.lastPaymentDate := by
  unfold derivePremium
  split <;> rfl

theorem deriveContract_lastPaymentDate (u : UserPayment) :
    (deriveContract u).lastPaymentDate = u.lastPaymentDate := by
  unfold deriveContract
  rw [derivePremium_lastPaymentDate, deriveEndDate_lastPaymentDate]

theorem deriveSummary_lastPaymentDate (u : UserPayment) :
    (deriveSummary u).lastPaymentDate =
      match settledOf u.paymentRecords with
      | [] => u.lastPaymentDate
      | h :: t => some (jsLatest h t).paymentDate := rfl

theorem deriveSummary_endDate (u : UserPayment) :
    (deriveSummary u).endDate = u.endDate := rfl

theorem deriveSummary_monthlyPremium (u : UserPayment) :
    (deriveSummary u).monthlyPremium = u.monthlyPremium := rfl

theorem deriveStatus_lastPaymentDate (u : UserPayment) :
    (deriveStatus u).lastPaymentDate = u.lastPaymentDate := by
  unfold deriveStatus
  split <;> rfl

theorem deriveStatus_endDate (u : UserPayment) :
    (deriveStatus u).endDate = u.endDate := by
  unfold deriveStatus
  split <;> rfl

theorem deriveStatus_monthlyPremium (u : UserPayment) :
    (deriveStatus u).monthlyPremium = u.monthlyPremium := by
  unfold deriveStatus
  split <;> rfl

theorem deriveStatus_status (u : UserPayment) :
    (deriveStatus u).status =
      if u.tenure ≤ u.completedMonths then AccStatus.completed else u.status := by
  unfold deriveStatus
  split <;> rfl

theorem preSave_lastPaymentDate (u : UserPayment) :
    (preSave u).lastPaymentDate =
      match settledOf u.paymentRecords with
      | [] => u.lastPaymentDate
      | h :: t => some (jsLatest h t).paymentDate := by
  unfold preSave
  rw [deriveStatus_lastPaymentDate, deriveSummary_lastPaymentDate,
    deriveContract_paymentRecords, deriveContract_lastPaymentDate]

theorem preSave_status (u : UserPayment) :
    (preSave u).status =
      if u.tenure ≤ ((settledOf u.paymentRecords).length : Int) then AccStatus.completed
      else u.status := by
  unfold preSave
  simp only [deriveStatus_status, deriveSummary_tenure, deriveSummary_completedMonths,
    deriveSummary_status, deriveContract_tenure, deriveContract_paymentRecords,
    deriveContract_status]

/-- `reduce((t, r) => t + r.amount, a)` equals `a` plus the sum of the
amounts. -/
theorem foldl_add_amount (l : List PaymentRecord) (a : ℚ) :
    l.foldl (fun t r => t + r.amount) a = a + (l.map PaymentRecord.amount).sum := by
  induction l generalizing a with
  | nil => simp
  | cons h t ih =>
    simp only [List.foldl_cons, List.map_cons, List.sum_cons]
    rw [ih]
    ring

theorem sumAmounts_eq_sum (l : List PaymentRecord) :
    sumAmounts l = (l.map PaymentRecord.amount).sum := by
  unfold sumAmounts
  rw [foldl_add_amount]
  ring

/-- Every derivation pass leaves the cached summary consistent with the
records it was derived from. -/
theorem summaryOk_preSave (u : UserPayment) : summaryOk (preSave u) = true := by
  unfold summaryOk
  simp only [preSave_paymentRecords, preSave_completedMonths, preSave_pendingMonths,
    preSave_totalPaidAmount, preSave_tenure, preSave_lastPaymentDate, preSave_status,
    Bool.and_eq_true, decide_eq_true_eq]
  refine ⟨⟨⟨⟨trivial, trivial⟩, trivial⟩, ?_⟩, ?_⟩
  · rcases hs : settledOf u.paymentRecords with _ | ⟨h, t⟩ <;> simp
  · by_cases hc : u.tenure ≤ ((settledOf u.paymentRecords).length : Int)
    · rw [if_pos hc]
      simp [hc]
    · simp [hc]

/-! ## Shape lemmas for the payment-application operations -/

/-- A successful `recordPayment` result is the saved (derived) document with
the even-split records appended. -/
theorem recordPayment_ok_shape (now : JsDate) (u v : UserPayment) (req : PayRequest)
    (h : recordPayment now u req = Except.ok v) :
    v = preSave
      { u with paymentRecords :=
          u.paymentRecords ++ req.monthNumbers.map (mkSingleRecord now u req) } := by
  unfold recordPayment at h
  split at h
  · exact absurd h (by simp)
  · split at h
    · exact absurd h (by simp)
    · exact (Except.ok.injEq _ _).mp h.symm

/-- A successful `recordBulkPayment` result is the saved (derived) document
with one record per entry appended. -/
theorem recordBulkPayment_ok_shape (now : JsDate) (u v : UserPayment) (ps : List BulkEntry)
    (h : recordBulkPayment now u ps = Except.ok v) :
    v = preSave
      { u with paymentRecords := u.paymentRecords ++ ps.map (mkBulkRecord now u) } := by
  unfold recordBulkPayment at h
  split at h
  · exact absurd h (by simp)
  · exact (Except.ok.injEq _ _).mp h.symm

/-- A derivation pass never moves `status` away from completed. -/
theorem preSave_preserves_completed (u : UserPayment)
    (h : u.status = AccStatus.completed) :
    (preSave u).status = AccStatus.completed := by
  rw [preSave_status]
  split
  · rfl
  · exact h

/-- One payment-application request never moves `status` away from
completed. -/
theorem applyOp_preserves_completed (u : UserPayment) (op : PayOp)
    (h : u.status = AccStatus.completed) :
    (applyOp u op).status = AccStatus.completed := by
  cases op with
  | single now req =>
    show (persistAfterPay now u req).status = AccStatus.completed
    unfold persistAfterPay
    rcases hres : recordPayment now u req with e | v
    · exact h
    · rw [recordPayment_ok_shape now u v req hres]
      exact preSave_preserves_completed _ h
  | bulk now ps =>
    show (persistAfterBulk now u ps).status = AccStatus.completed
    unfold persistAfterBulk
    rcases hres : recordBulkPayment now u ps with e | v
    · exact h
    · rw [recordBulkPayment_ok_shape now u v ps hres]
      exact preSave_preserves_completed _ h

/-- A sequence of payment-application requests never moves `status` away
from completed. -/
theorem applyOps_preserves_completed (ops : List PayOp) (u : UserPayment)
    (h : u.status = AccStatus.completed) :
    (applyOps u ops).status = AccStatus.completed := by
  induction ops generalizing u with
  | nil => exact h
  | cons op rest ih =>
    exact ih (applyOp u op) (applyOp_preserves_completed u op h)

/-! ## Concrete sample data for witnesses -/

def addr0 : Address := ⟨none, none, none, none⟩

def startDate0 : JsDate := ⟨24288, 0⟩

def now0 : JsDate := ⟨24290, 7⟩

/-- A freshly created 12-month account with no payment records. -/
def baseAccount : UserPayment :=
  { memberName := "Asha"
    aadharNumber := "123456789012"
    phoneNumber := "9876543210"
    email := "asha@example.com"
    address := addr0
    chitAmount := 12000
    tenure := 12
    monthlyPremium := some 1000
    startDate := startDate0
    endDate := some (startDate0.addMonths 12)
    status := AccStatus.active
    paymentRecords := []
    totalPaidAmount := 0
    pendingMonths := 12
    completedMonths := 0
    lastPaymentDate := none }

/-- A paid record for month 1. -/
def paidRec1 : PaymentRecord :=
  { monthNumber := 1
    amount := 1000
    paymentDate := ⟨24288, 3⟩
    dueDate := startDate0
    status := RecStatus.paid
    paymentMethod := PayMethod.cash
    transactionId := none
    remarks := none
    lateFee := 0 }

/-- `baseAccount` after month 1 has been paid. -/
def acctPaid1 : UserPayment :=
  { baseAccount with
    paymentRecords := [paidRec1]
    totalPaidAmount := 1000
    completedMonths := 1
    pendingMonths := 11
    lastPaymentDate := some ⟨24288, 3⟩ }

/-- A fully settled single-month account (tenure 1, month 1 paid). -/
def acctDone : UserPayment :=
  { baseAccount with
    tenure := 1
    paymentRecords := [paidRec1]
    totalPaidAmount := 1000
    completedMonths := 1
    pendingMonths := 0
    lastPaymentDate := some ⟨24288, 3⟩ }

/-! ## Claims -/

/-- Claim C2: after any derivation pass, `totalPaidAmount` is exactly the
sum of `amount` over the records with status paid or partial, recomputed
from scratch from the current records (whatever the previous cached value
was), and a second derivation without new records yields the same value. -/
theorem claim_totalPaid_recomputed (u : UserPayment) :
    (preSave u).totalPaidAmount
      = ((u.paymentRecords.filter isSettled).map PaymentRecord.amount).sum ∧
    (preSave (preSave u)).totalPaidAmount = (preSave u).totalPaidAmount := by
  constructor
  · rw [preSave_totalPaidAmount, sumAmounts_eq_sum]
    rfl
  · rw [preSave_totalPaidAmount (preSave u), preSave_paymentRecords, preSave_totalPaidAmount]

/-- Claim C3: after any derivation pass, `completedMonths + pendingMonths`
equals `tenure`, and `completedMonths` is the count of records with status
paid or partial. -/
theorem claim_completed_plus_pending (u : UserPayment) :
    (preSave u).completedMonths + (preSave u).pendingMonths = (preSave u).tenure ∧
    (preSave u).completedMonths = ((u.paymentRecords.filter isSettled).length : Int) := by
  constructor
  · rw [preSave_completedMonths, preSave_pendingMonths, preSave_tenure]
    ring
  · rw [preSave_completedMonths]
    rfl

/-- Claim C7: once the settled-record count has reached `tenure`, the
derivation pass sets `status` to completed, and the status stays completed
after any further sequence of (single or bulk) payment applications, each
of which ends in its own derivation pass. -/
theorem claim_completion_one_way (u : UserPayment) (ops : List PayOp)
    (h : u.tenure ≤ ((settledOf u.paymentRecords).length : Int)) :
    (preSave u).status = AccStatus.completed ∧
    (applyOps (preSave u) ops).status = AccStatus.completed := by
  have h1 : (preSave u).status = AccStatus.completed := by
    rw [preSave_status, if_pos h]
  exact ⟨h1, applyOps_preserves_completed ops (preSave u) h1⟩

/-- Witness for C7 at a concrete fully paid account and a concrete
follow-up request sequence. -/
theorem claim_completion_one_way_witness :
    (preSave acctDone).status = AccStatus.completed ∧
    (applyOps (preSave acctDone)
      [PayOp.single now0 ⟨[1], 1000, none, none, none, none⟩,
       PayOp.bulk now0 [⟨1, 1000, none, none, none, none, none⟩]]).status
      = AccStatus.completed :=
  claim_completion_one_way acctDone _ (by decide)

/-- Claim C10: a derivation pass on a cancelled account whose settled-record
count has reached `tenure` overwrites the cancelled status with completed —
the externally set cancelled status is not preserved. -/
theorem claim_cancelled_overwritten (u : UserPayment)
    (_hc : u.status = AccStatus.cancelled)
    (hn : u.tenure ≤ ((settledOf u.paymentRecords).length : Int)) :
    (preSave u).status = AccStatus.completed := by
  rw [preSave_status, if_pos hn]

/-- Witness for C10 at a concrete cancelled, fully settled account. -/
theorem claim_cancelled_overwritten_witness :
    (preSave { acctDone with status := AccStatus.cancelled }).status
      = AccStatus.completed :=
  claim_cancelled_overwritten _ rfl (by decide)

/-- Claim C5: a single-payment request containing a month number outside
`1..tenure` fails with the Validation error naming exactly the offending
numbers, and the stored account is unchanged. -/
theorem claim_invalid_month_rejected (now : JsDate) (u : UserPayment) (req : PayRequest)
    (h : ∃ m ∈ req.monthNumbers, m < 1 ∨ u.tenure < m) :
    recordPayment now u req = Except.error (PayError.invalidMonths (singleInvalid u req)) ∧
    singleInvalid u req ≠ [] ∧
    (∀ m, m ∈ singleInvalid u req ↔ m ∈ req.monthNumbers ∧ (m < 1 ∨ u.tenure < m)) ∧
    persistAfterPay now u req = u := by
  obtain ⟨m, hm, hcond⟩ := h
  have hmem : m ∈ singleInvalid u req := by
    unfold singleInvalid
    exact List.mem_filter.mpr ⟨hm, by simpa using hcond⟩
  have hne : singleInvalid u req ≠ [] := List.ne_nil_of_mem hmem
  have hlen : (singleInvalid u req).length > 0 := List.length_pos.mpr hne
  have herr : recordPayment now u req
      = Except.error (PayError.invalidMonths (singleInvalid u req)) := by
    unfold recordPayment
    rw [if_pos hlen]
  refine ⟨herr, hne, ?_, ?_⟩
  · intro m'
    unfold singleInvalid
    simp [List.mem_filter]
  · unfold persistAfterPay
    rw [herr]

/-- Witness for C5: `tenure = 12`, requested month 13. -/
theorem claim_invalid_month_rejected_witness :
    recordPayment now0 baseAccount ⟨[13], 1000, none, none, none, none⟩
      = Except.error (PayError.invalidMonths
          (singleInvalid baseAccount ⟨[13], 1000, none, none, none, none⟩)) ∧
    singleInvalid baseAccount ⟨[13], 1000, none, none, none, none⟩ ≠ [] ∧
    (∀ m, m ∈ singleInvalid baseAccount ⟨[13], 1000, none, none, none, none⟩ ↔
      m ∈ [(13 : Int)] ∧ (m < 1 ∨ (12 : Int) < m)) ∧
    persistAfterPay now0 baseAccount ⟨[13], 1000, none, none, none, none⟩ = baseAccount :=
  claim_invalid_month_rejected now0 baseAccount _ (by decide)

/-- Claim C4: a single-payment request whose months are all in range but
where some requested month already has a paid record fails with the Conflict
error enumerating exactly the already-paid requested months, and the stored
account is unchanged. -/
theorem claim_already_paid_conflict (now : JsDate) (u : UserPayment) (req : PayRequest)
    (hrange : ∀ m ∈ req.monthNumbers, 1 ≤ m ∧ m ≤ u.tenure)
    (hpaid : ∃ r ∈ u.paymentRecords,
      r.monthNumber ∈ req.monthNumbers ∧ r.status = RecStatus.paid) :
    recordPayment now u req
      = Except.error (PayError.monthsAlreadyPaid (singleExisting u req)) ∧
    singleExisting u req ≠ [] ∧
    (∀ m, m ∈ singleExisting u req ↔
      ∃ r ∈ u.paymentRecords,
        r.monthNumber = m ∧ m ∈ req.monthNumbers ∧ r.status = RecStatus.paid) ∧
    persistAfterPay now u req = u := by
  have hinv : singleInvalid u req = [] := by
    unfold singleInvalid
    rw [List.filter_eq_nil_iff]
    intro a ha
    have := hrange a ha
    simp only [decide_eq_true_eq]
    omega
  obtain ⟨r, hr, hmem, hst⟩ := hpaid
  have hex : r.monthNumber ∈ singleExisting u req := by
    unfold singleExisting
    exact List.mem_map.mpr ⟨r, List.mem_filter.mpr ⟨hr, by simp [hmem, hst]⟩, rfl⟩
  have hne : singleExisting u req ≠ [] := List.ne_nil_of_mem hex
  have hlen : (singleExisting u req).length > 0 := List.length_pos.mpr hne
  have herr : recordPayment now u req
      = Except.error (PayError.monthsAlreadyPaid (singleExisting u req)) := by
    unfold recordPayment
    rw [hinv, if_neg (by simp), if_pos hlen]
  refine ⟨herr, hne, ?_, ?_⟩
  · intro m
    unfold singleExisting
    simp only [List.mem_map, List.mem_filter, Bool.and_eq_true, decide_eq_true_eq]
    constructor
    · rintro ⟨s, ⟨hs, hsm, hss⟩, rfl⟩
      exact ⟨s, hs, rfl, hsm, hss⟩
    · rintro ⟨s, hs, rfl, hsm, hss⟩
      exact ⟨s, ⟨hs, hsm, hss⟩, rfl⟩
  · unfold persistAfterPay
    rw [herr]

/-- Witness for C4: month 1 already paid, re-request of month 1. -/
theorem claim_already_paid_conflict_witness :
    recordPayment now0 acctPaid1 ⟨[1], 1000, none, none, none, none⟩
      = Except.error (PayError.monthsAlreadyPaid
          (singleExisting acctPaid1 ⟨[1], 1000, none, none, none, none⟩)) ∧
    singleExisting acctPaid1 ⟨[1], 1000, none, none, none, none⟩ ≠ [] ∧
    (∀ m, m ∈ singleExisting acctPaid1 ⟨[1], 1000, none, none, none, none⟩ ↔
      ∃ r ∈ acctPaid1.paymentRecords,
        r.monthNumber = m ∧ m ∈ [(1 : Int)] ∧ r.status = RecStatus.paid) ∧
    persistAfterPay now0 acctPaid1 ⟨[1], 1000, none, none, none, none⟩ = acctPaid1 :=
  claim_already_paid_conflict now0 acctPaid1 _ (by decide) (by decide)

/-- The even-split request used in the C6 witness: 1200 across months
1, 2, 3. -/
def req1200 : PayRequest := ⟨[1, 2, 3], 1200, none, none, none, none⟩

/-- Claim C6: a valid single-payment request over a non-empty month list
succeeds, appends one record per requested month, and each new record
carries the even split `amount / count`, the due date
`startDate + (month − 1) months`, status paid, the supplied payment date or
else `now`, and the supplied payment method or else cash. -/
theorem claim_even_split_success (now : JsDate) (u : UserPayment) (req : PayRequest)
    (_hne : req.monthNumbers ≠ [])
    (hrange : ∀ m ∈ req.monthNumbers, 1 ≤ m ∧ m ≤ u.tenure)
    (hfree : ∀ r ∈ u.paymentRecords,
      r.status = RecStatus.paid → r.monthNumber ∉ req.monthNumbers) :
    recordPayment now u req =
      Except.ok (preSave
        { u with paymentRecords :=
            u.paymentRecords ++ req.monthNumbers.map (mkSingleRecord now u req) }) ∧
    ∀ m, (mkSingleRecord now u req m).amount = req.amount / (req.monthNumbers.length : ℚ) ∧
      (mkSingleRecord now u req m).dueDate = u.startDate.addMonths (m - 1) ∧
      (mkSingleRecord now u req m).status = RecStatus.paid ∧
      (mkSingleRecord now u req m).paymentDate = req.paymentDate.getD now ∧
      (req.paymentDate = none → (mkSingleRecord now u req m).paymentDate = now) ∧
      (mkSingleRecord now u req m).paymentMethod = req.paymentMethod.getD PayMethod.cash ∧
      (req.paymentMethod = none → (mkSingleRecord now u req m).paymentMethod = PayMethod.cash) := by
  have hinv : singleInvalid u req = [] := by
    unfold singleInvalid
    rw [List.filter_eq_nil_iff]
    intro a ha
    have := hrange a ha
    simp only [decide_eq_true_eq]
    omega
  have hexist : singleExisting u req = [] := by
    unfold singleExisting
    rw [List.map_eq_nil_iff, List.filter_eq_nil_iff]
    intro r hr
    simp only [Bool.and_eq_true, decide_eq_true_eq, not_and]
    intro hmem hst
    exact hfree r hr hst hmem
  constructor
  · unfold recordPayment
    rw [hinv, if_neg (by simp), hexist, if_neg (by simp)]
  · intro m
    refine ⟨rfl, rfl, rfl, rfl, ?_, rfl, ?_⟩
    · intro h
      show req.paymentDate.getD now = now
      rw [h]
      rfl
    · intro h
      show req.paymentMethod.getD PayMethod.cash = PayMethod.cash
      rw [h]
      rfl

/-- Witness for C6: 1200 split across months 1–3 yields three records of
400 each with the right due dates. -/
theorem claim_even_split_success_witness :
    (recordPayment now0 baseAccount req1200 =
      Except.ok (preSave
        { baseAccount with paymentRecords :=
            baseAccount.paymentRecords
              ++ req1200.monthNumbers.map (mkSingleRecord now0 baseAccount req1200) })) ∧
    req1200.monthNumbers.map (fun m => (mkSingleRecord now0 baseAccount req1200 m).amount)
      = [400, 400, 400] ∧
    req1200.monthNumbers.map (fun m => (mkSingleRecord now0 baseAccount req1200 m).dueDate)
      = [startDate0, startDate0.addMonths 1, startDate0.addMonths 2] :=
  ⟨(claim_even_split_success now0 baseAccount req1200 (by decide) (by decide) (by decide)).1,
   by norm_num [req1200, mkSingleRecord], by decide⟩

/-- The bulk validation loop accepts a batch when every entry is in range
and its month has no pre-existing paid record; no condition on the other
entries of the batch (duplicates within the batch pass). -/
theorem bulkFirstError_eq_none (u : UserPayment) (ps : List BulkEntry)
    (h : ∀ p ∈ ps, (1 ≤ p.monthNumber ∧ p.monthNumber ≤ u.tenure) ∧
      ∀ r ∈ u.paymentRecords, ¬(r.monthNumber = p.monthNumber ∧ r.status = RecStatus.paid)) :
    bulkFirstError u ps = none := by
  induction ps with
  | nil => rfl
  | cons p rest ih =>
    obtain ⟨⟨h1, h2⟩, h3⟩ := h p (List.mem_cons_self _ _)
    have hf : u.paymentRecords.filter
        (fun r => decide (r.monthNumber = p.monthNumber) && decide (r.status = RecStatus.paid))
        = [] := by
      rw [List.filter_eq_nil_iff]
      intro r hr
      simp only [Bool.and_eq_true, decide_eq_true_eq, not_and]
      intro he hs
      exact h3 r hr ⟨he, hs⟩
    unfold bulkFirstError
    rw [if_neg (by omega), hf]
    simp only [List.length_nil, gt_iff_lt, lt_self_iff_false, if_false]
    exact ih (fun q hq => h q (List.mem_cons_of_mem _ hq))

/-- Claim C8: bulk validation is per-entry (range + already-paid against the
pre-existing records only), so a batch whose entries each pass — including a
batch with duplicate month numbers — is accepted whole, each entry appended
as its own paid record with its own amount and its own `lateFee`
(defaulting to 0); and any validation failure leaves the stored account
entirely unmodified. -/
theorem claim_bulk_per_entry (now : JsDate) (u : UserPayment) (ps : List BulkEntry)
    (h : ∀ p ∈ ps, (1 ≤ p.monthNumber ∧ p.monthNumber ≤ u.tenure) ∧
      ∀ r ∈ u.paymentRecords, ¬(r.monthNumber = p.monthNumber ∧ r.status = RecStatus.paid)) :
    recordBulkPayment now u ps =
      Except.ok (preSave
        { u with paymentRecords := u.paymentRecords ++ ps.map (mkBulkRecord now u) }) ∧
    (∀ p, (mkBulkRecord now u p).amount = p.amount ∧
      (mkBulkRecord now u p).lateFee = p.lateFee.getD 0 ∧
      (p.lateFee = none → (mkBulkRecord now u p).lateFee = 0) ∧
      (mkBulkRecord now u p).status = RecStatus.paid ∧
      (mkBulkRecord now u p).monthNumber = p.monthNumber) ∧
    (∀ (qs : List BulkEntry) (e : PayError),
      recordBulkPayment now u qs = Except.error e → persistAfterBulk now u qs = u) := by
  refine ⟨?_, ?_, ?_⟩
  · unfold recordBulkPayment
    rw [bulkFirstError_eq_none u ps h]
  · intro p
    refine ⟨rfl, rfl, ?_, rfl, rfl⟩
    intro hl
    show p.lateFee.getD 0 = 0
    rw [hl]
    rfl
  · intro qs e he
    unfold persistAfterBulk
    rw [he]

/-- The duplicate batch used in the C8 witness: two entries for month 2 in
one request, with different amounts, the second with its own late fee. -/
def bulkDup : List BulkEntry :=
  [⟨2, 500, none, none, none, none, none⟩, ⟨2, 700, none, none, none, none, some 25⟩]

/-- Witness for C8: a batch with duplicate month 2 on an account where only
month 1 is paid is accepted whole; the two records keep their own amounts
and late fees. -/
theorem claim_bulk_per_entry_witness :
    recordBulkPayment now0 acctPaid1 bulkDup =
      Except.ok (preSave
        { acctPaid1 with paymentRecords :=
            acctPaid1.paymentRecords ++ bulkDup.map (mkBulkRecord now0 acctPaid1) }) ∧
    bulkDup.map (fun p => (mkBulkRecord now0 acctPaid1 p).amount) = [500, 700] ∧
    bulkDup.map (fun p => (mkBulkRecord now0 acctPaid1 p).lateFee) = [0, 25] ∧
    bulkDup.map (fun p => (mkBulkRecord now0 acctPaid1 p).monthNumber) = [2, 2] :=
  ⟨(claim_bulk_per_entry now0 acctPaid1 bulkDup (by decide)).1,
   by decide, by decide, by decide⟩

/-- Claim C9 (amended): a derivation pass never overwrites an already-set
`endDate`, and never overwrites an already-set non-zero `monthlyPremium`;
a `monthlyPremium` equal to 0 is treated as absent by the JS truthiness
test and is recomputed (see the counterexample). -/
theorem claim_contract_not_overwritten (u : UserPayment) :
    (∀ d, u.endDate = some d → (preSave u).endDate = some d) ∧
    (∀ q, u.monthlyPremium = some q → q ≠ 0 → (preSave u).monthlyPremium = some q) := by
  constructor
  · intro d hd
    unfold preSave
    rw [deriveStatus_endDate, deriveSummary_endDate]
    unfold deriveContract
    rw [derivePremium_endDate]
    unfold deriveEndDate
    rw [if_neg (by simp [hd])]
    exact hd
  · intro q hq hq0
    unfold preSave
    rw [deriveStatus_monthlyPremium, deriveSummary_monthlyPremium]
    unfold deriveContract
    have h1 : (deriveEndDate u).monthlyPremium = some q := by
      rw [deriveEndDate_monthlyPremium]
      exact hq
    unfold derivePremium
    rw [if_neg ?_]
    · exact h1
    · rintro ⟨-, -, hf⟩
      rw [h1] at hf
      simp only [numFalsy, decide_eq_true_eq] at hf
      exact hq0 hf

/-- Witness for C9 at `baseAccount`, whose `endDate` and non-zero
`monthlyPremium` are both set. -/
theorem claim_contract_not_overwritten_witness :
    (preSave baseAccount).endDate = some (startDate0.addMonths 12) ∧
    (preSave baseAccount).monthlyPremium = some 1000 :=
  ⟨(claim_contract_not_overwritten baseAccount).1 _ rfl,
   (claim_contract_not_overwritten baseAccount).2 1000 rfl (by norm_num)⟩

/-- `baseAccount` with its `monthlyPremium` hand-set to 0. -/
def acctZeroPremium : UserPayment := { baseAccount with monthlyPremium := some 0 }

/-- Counterexample to C9 as stated: `monthlyPremium` is set (to 0) before
the derivation pass, yet the pass overwrites it with
`chitAmount / tenure = 1000`, because the JS guard `!this.monthlyPremium`
treats the number 0 as absent. -/
theorem claim_contract_not_overwritten_counterexample :
    acctZeroPremium.monthlyPremium = some 0 ∧
    (preSave acctZeroPremium).monthlyPremium = some 1000 ∧
    (preSave acctZeroPremium).monthlyPremium ≠ acctZeroPremium.monthlyPremium := by
  have h2 : (preSave acctZeroPremium).monthlyPremium = some 1000 := by
    unfold preSave
    rw [deriveStatus_monthlyPremium, deriveSummary_monthlyPremium]
    unfold deriveContract
    have hc1 : (deriveEndDate acctZeroPremium).chitAmount ≠ 0 := by
      rw [deriveEndDate_chitAmount]
      show (12000 : ℚ) ≠ 0
      norm_num
    have hc2 : (deriveEndDate acctZeroPremium).tenure ≠ 0 := by
      rw [deriveEndDate_tenure]
      decide
    have hc3 : numFalsy (deriveEndDate acctZeroPremium).monthlyPremium = true := by
      rw [deriveEndDate_monthlyPremium]
      rfl
    unfold derivePremium
    rw [if_pos ⟨hc1, hc2, hc3⟩, deriveEndDate_chitAmount, deriveEndDate_tenure]
    show some ((12000 : ℚ) / ((12 : ℤ) : ℚ)) = some 1000
    norm_num
  refine ⟨rfl, h2, ?_⟩
  rw [h2]
  intro h
  have h10 : (1000 : ℚ) = 0 := Option.some.inj h
  norm_num at h10

/-- Claim C1 (amended): the mutation paths that persist through
`Document.save()` — creation, single payment, bulk payment — run the
derivation pass immediately before persisting, so on those paths the
persisted cached summary is always consistent with the persisted
`paymentRecords`.  The administrative update path
(`findByIdAndUpdate`) bypasses the `pre("save")` middleware and can persist
an inconsistent summary (see the counterexample). -/
theorem claim_save_paths_derive (d : CreateData) (now : JsDate) (u u1 u2 : UserPayment)
    (req : PayRequest) (ps : List BulkEntry)
    (h1 : recordPayment now u req = Except.ok u1)
    (h2 : recordBulkPayment now u ps = Except.ok u2) :
    summaryOk (createUserPayment d) = true ∧
    summaryOk u1 = true ∧
    summaryOk u2 = true := by
  refine ⟨summaryOk_preSave _, ?_, ?_⟩
  · rw [recordPayment_ok_shape now u u1 req h1]
    exact summaryOk_preSave _
  · rw [recordBulkPayment_ok_shape now u u2 ps h2]
    exact summaryOk_preSave _

/-- Creation body used in the C1 witness. -/
def createW : CreateData :=
  ⟨"Ravi", "210987654321", "9123456780", "ravi@example.com", addr0,
   12000, 12, none, startDate0, none, none, none⟩

/-- Single-payment request used in the C1 witness. -/
def reqW : PayRequest := ⟨[2], 1000, none, none, none, none⟩

/-- Bulk batch used in the C1 witness. -/
def bulkW : List BulkEntry := [⟨3, 1000, none, none, none, none, none⟩]

/-- The document saved by the single-payment path of the C1 witness. -/
def savedSingleW : UserPayment :=
  preSave
    { baseAccount with paymentRecords :=
        baseAccount.paymentRecords ++ reqW.monthNumbers.map (mkSingleRecord now0 baseAccount reqW) }

/-- The document saved by the bulk-payment path of the C1 witness. -/
def savedBulkW : UserPayment :=
  preSave
    { baseAccount with paymentRecords :=
        baseAccount.paymentRecords ++ bulkW.map (mkBulkRecord now0 baseAccount) }

/-- Witness for C1 (amended) at concrete create, single-payment and
bulk-payment requests. -/
theorem claim_save_paths_derive_witness :
    summaryOk (createUserPayment createW) = true ∧
    summaryOk savedSingleW = true ∧
    summaryOk savedBulkW = true :=
  claim_save_paths_derive createW now0 baseAccount savedSingleW savedBulkW reqW bulkW rfl rfl

/-- The `PUT /api/user-payments/:id` body used in the C1 counterexample: a
free-form patch that hand-sets the cached `totalPaidAmount`. -/
def patch999 : UpdatePatch := { totalPaidAmount := some 999 }

/-- Counterexample to C1 as stated: the administrative field update is a
public mutation path that persists without a derivation pass.  Starting
from a consistent account with no payment records, persisting the patch
`{totalPaidAmount: 999}` through `updateUserPayment` stores
`totalPaidAmount = 999` alongside an empty `paymentRecords`, a summary out
of sync with the records it claims to cache. -/
theorem claim_save_paths_derive_counterexample :
    summaryOk baseAccount = true ∧
    (updateUserPayment baseAccount patch999).paymentRecords = [] ∧
    (updateUserPayment baseAccount patch999).totalPaidAmount = 999 ∧
    summaryOk (updateUserPayment baseAccount patch999) = false := by
  refine ⟨by decide, rfl, rfl, by decide⟩
